import Mathlib

/-
  Verification development for the fastrtc-groq voice-agent repository
  (src/app.py, src/rag_processor.py, src/stt_processor.py, src/tts_processor.py).

  Embedding conventions:
  * External library and service calls (Whisper, Ollama, FAISS, Kokoro, gTTS,
    base64 decoding, the LangChain QA chain) are modelled as oracle functions
    supplied in an environment structure; each oracle returns
    `Except String A` where `.ok` models a normal return and `.error` models
    a raised Python exception.  A `try` block whose body is a straight-line
    sequence of external calls is collapsed into one oracle whose result is
    the block's combined outcome; this is sound because a raised exception
    short-circuits control to the matching `except` handler.
  * Byte strings are `List Nat`; opaque library handles (FAISS vector stores,
    RetrievalQA chains, loaded document chunks) are abstract values.
  * Where a claim is about which engines are invoked, the embedded function
    additionally returns the list of calls it performed, in order.
  * WebSocket sends are modelled by collecting, in emission order, the list of
    outbound frames produced for each inbound frame; transport-level send
    failures (connection broken) are outside the per-message model.
-/

namespace VoiceAgent

/-- Abstract value for a loaded document chunk (output of the LangChain loaders). -/
abbrev Doc := String

/-- Abstract handle for a FAISS vector store. -/
abbrev VS := Nat

/-- Abstract handle for a RetrievalQA chain. -/
abbrev Chain := Nat

/- ===== src/stt_processor.py ===== -/

/-- Oracle for the body of the `try` block of `STTProcessor.transcribe_audio`:
pydub decoding, resampling, wav export and `whisper` transcription of the given
byte string, ending in `result["text"]` on success or a raised exception. -/
structure STTEnv where
  recognize : List Nat → Except String String

/-- The fixed apologetic placeholder transcript returned by the `except` handler
of `STTProcessor.transcribe_audio`. -/
def stt_placeholder : String :=
  "Maaf, saya tidak dapat memahami audio yang dikirim. Silakan coba lagi."

/-- `STTProcessor.transcribe_audio` (src/stt_processor.py lines 26-53). -/
def transcribe_audio (env : STTEnv) (audio_data : List Nat) : String :=
  match env.recognize audio_data with
  | .ok text => text
  | .error _ => stt_placeholder

/- ===== src/tts_processor.py ===== -/

/-- The two synthesis engines `TTSProcessor` can invoke. -/
inductive Engine where
  | kokoro
  | gtts
deriving DecidableEq

/-- Environment of `TTSProcessor`: the `use_kokoro` / `initialized` flags set in
`__init__`, one oracle for the Kokoro path (model call, int16 conversion and wav
export collapsed) and one for the `gTTS` path (import, synthesis, mp3-to-wav
conversion collapsed); the gTTS oracle receives the computed `lang_code`. -/
structure TTSEnv where
  use_kokoro : Bool
  initialized : Bool
  kokoro : String → Except String (List Nat)
  gtts : String → String → Except String (List Nat)

/-- `TTSProcessor._synthesize_with_gtts` (src/tts_processor.py lines 63-84);
also reports which engines were invoked. -/
def synthesize_with_gtts (env : TTSEnv) (text language : String) :
    List Nat × List Engine :=
  let lang_code := if language.toLower = "id" then "id" else "en"
  match env.gtts text lang_code with
  | .ok bs => (bs, [Engine.gtts])
  | .error _ => ([], [Engine.gtts])

/-- `TTSProcessor.synthesize_speech` (src/tts_processor.py lines 28-61);
also reports which engines were invoked, in order. -/
def synthesize_speech (env : TTSEnv) (text language : String) :
    List Nat × List Engine :=
  if text = "" ∨ text.trim = "" then ([], [])
  else if env.use_kokoro && env.initialized then
    match env.kokoro text with
    | .ok bs => (bs, [Engine.kokoro])
    | .error _ =>
      let r := synthesize_with_gtts env text language
      (r.1, Engine.kokoro :: r.2)
  else synthesize_with_gtts env text language

/- ===== src/rag_processor.py ===== -/

/-- The mutable fields of a `RAGProcessor` instance. -/
structure RAGState where
  data_folder : String
  vectorstore : Option VS
  qa_chain : Option Chain
  has_documents : Bool

/-- One directory entry of the data folder: its filename and the outcome of
constructing-and-running the matching LangChain loader on it (`.error` models
an unreadable or corrupt file whose load raises). -/
structure FileEntry where
  name : String
  loadResult : Except String (List Doc)

/-- Python's `filename.endswith(suffix)`, at the character-list level. -/
def ends_with (s suffix : String) : Bool := decide (suffix.toList <:+ s.toList)

/-- `RAGProcessor.load_documents` (src/rag_processor.py lines 25-47): files with
an unrecognized extension are skipped; a loader exception for an individual
file is caught and that file is skipped. -/
def load_documents (folder_exists : Bool) (files : List FileEntry) : List Doc :=
  if folder_exists = false then []
  else
    files.foldl (fun documents f =>
      if ends_with f.name ".pdf" then
        match f.loadResult with
        | .ok ds => documents ++ ds
        | .error _ => documents
      else if ends_with f.name ".txt" then
        match f.loadResult with
        | .ok ds => documents ++ ds
        | .error _ => documents
      else documents) []

/-- Environment of one `setup_qa_chain` run: the data-folder contents and the
oracles for `FAISS.from_documents` and for prompt-template plus
`RetrievalQA.from_chain_type` construction (collapsed into one call, since an
exception in either lands in the same `except` handler). -/
structure SetupEnv where
  folder_exists : Bool
  files : List FileEntry
  faiss : Except String VS
  mkChain : Except String Chain

/-- `RAGProcessor.setup_qa_chain` (src/rag_processor.py lines 49-91), as a
state transformer.  Field-assignment order of the Python body is preserved:
on a FAISS failure neither `vectorstore` nor `qa_chain` is touched; on a chain
construction failure `vectorstore` has already been replaced but `qa_chain`
keeps its previous value; `has_documents` is set to `true` only after
`qa_chain` received the freshly built chain. -/
def setup_qa_chain (env : SetupEnv) (s : RAGState) : RAGState :=
  let documents := load_documents env.folder_exists env.files
  if documents.isEmpty then
    { s with has_documents := false, qa_chain := none }
  else
    match env.faiss with
    | .error _ => { s with has_documents := false }
    | .ok vs =>
      let s1 := { s with vectorstore := some vs }
      match env.mkChain with
      | .error _ => { s1 with has_documents := false }
      | .ok ch => { s1 with qa_chain := some ch, has_documents := true }

/-- `RAGProcessor.__init__` (src/rag_processor.py lines 14-23): all fields
start empty/false, then `setup_qa_chain` runs once. -/
def rag_new (env : SetupEnv) : RAGState :=
  setup_qa_chain env
    { data_folder := "data", vectorstore := none, qa_chain := none,
      has_documents := false }

/-- States of a `RAGProcessor` reachable by construction followed by any
sequence of corpus rebuilds (`setup_qa_chain` is re-invoked by the `/upload`
endpoint in src/app.py), each with arbitrary external outcomes. -/
inductive RAGReachable : RAGState → Prop where
  | init (env : SetupEnv) : RAGReachable (rag_new env)
  | rebuild (env : SetupEnv) {s : RAGState} :
      RAGReachable s → RAGReachable (setup_qa_chain env s)

/-- Query-time environment of `RAGProcessor`: the Ollama LLM as a function of
the full prompt string, and the QA-chain call as a function of the chain
handle and the question (`result["result"]` extraction collapsed). -/
structure RAGEnv where
  llm : String → Except String String
  chain : Chain → String → Except String String

/-- `self.qa_chain({"query": question})`: calling a `None` chain raises a
`TypeError` in Python, modelled as an `.error`; otherwise the chain oracle
runs. -/
def chain_invoke (env : RAGEnv) (c : Option Chain) (q : String) :
    Except String String :=
  match c with
  | none => Except.error "NoneType object is not callable"
  | some ch => env.chain ch q

/-- The general-conversation prompt built by `RAGProcessor.query` when no
documents are loaded (src/rag_processor.py lines 98-106). -/
def general_prompt (question : String) : String :=
  "Anda adalah asisten AI yang membantu pengguna. \n" ++
  "Jawablah pertanyaan berikut dengan ramah dan informatif menggunakan bahasa Indonesia.\n\n" ++
  "Jika Anda tidak tahu jawabannya, jangan membuat-buat jawaban.\n" ++
  "Katakan saja bahwa Anda belum memiliki pengetahuan tentang topik tersebut \n" ++
  "dan sarankan pengguna untuk mengupload dokumen PDF terkait.\n\n" ++
  "Pertanyaan: " ++ question ++ "\nJawaban:"

/-- The simpler fallback prompt built by `RAGProcessor.query` when the grounded
path raised (src/rag_processor.py lines 122-125). -/
def fallback_prompt (question : String) : String :=
  "Jawablah pertanyaan berikut dengan ramah menggunakan bahasa Indonesia.\n\n" ++
  "Pertanyaan: " ++ question ++ "\nJawaban:"

/-- Apology returned when the no-documents LLM call raises
(src/rag_processor.py line 112). -/
def apology_general : String :=
  "Maaf, saya mengalami gangguan teknis. Silakan coba lagi dalam beberapa saat."

/-- Apology returned when both the grounded path and the fallback LLM call
raise (src/rag_processor.py line 130). -/
def apology_fallback : String :=
  "Maaf, terjadi kesalahan dalam memproses pertanyaan Anda. Silakan coba lagi."

/-- Trace entries for the external calls `RAGProcessor.query` performs. -/
inductive RAGCall where
  | llmCall (prompt : String)
  | chainCall (question : String)
deriving DecidableEq

/-- `RAGProcessor.query` (src/rag_processor.py lines 93-130); also reports the
external calls performed, in order. -/
def query (env : RAGEnv) (s : RAGState) (question : String) :
    String × List RAGCall :=
  if s.has_documents = false then
    match env.llm (general_prompt question) with
    | .ok r => (r, [RAGCall.llmCall (general_prompt question)])
    | .error _ => (apology_general, [RAGCall.llmCall (general_prompt question)])
  else
    match chain_invoke env s.qa_chain question with
    | .ok r => (r, [RAGCall.chainCall question])
    | .error _ =>
      match env.llm (fallback_prompt question) with
      | .ok r =>
        (r, [RAGCall.chainCall question, RAGCall.llmCall (fallback_prompt question)])
      | .error _ =>
        (apology_fallback,
         [RAGCall.chainCall question, RAGCall.llmCall (fallback_prompt question)])

/- ===== src/app.py : language heuristic and session loop ===== -/

/-- The fixed English marker words of src/app.py line 159. -/
def english_markers : List String :=
  ["english", "inggris", "hello", "hi", "how are you"]

/-- Python's `transcript.lower()`, at the character-list level. -/
def lower_list (s : String) : List Char := s.toList.map Char.toLower

/-- Python's substring test `w in transcript.lower()`. -/
def contains_marker (w transcript : String) : Bool :=
  decide (w.toList <:+: lower_list transcript)

/-- The language-selection heuristic of src/app.py lines 157-160. -/
def detect_language (transcript : String) : String :=
  if english_markers.any (fun w => contains_marker w transcript) then "en"
  else "id"

/-- One inbound JSON frame, with its `type` tag and `data` payload. -/
structure InFrame where
  type : String
  data : String

/-- Outbound JSON frames emitted by the session loop. -/
inductive OutFrame where
  | transcript (data : String)
  | response_text (text : String)
  | response_audio (data : String)
  | error (data : String)
deriving DecidableEq

/-- Per-frame environment of the session loop: the base64 decode outcome for
the payload, the three shared processors' oracles, the current `RAGProcessor`
state, and base64 encoding of the synthesized bytes. -/
structure SessionEnv where
  b64decode : String → Except String (List Nat)
  stt : STTEnv
  rag : RAGEnv
  rag_state : RAGState
  tts : TTSEnv
  b64encode : List Nat → String

/-- The per-message body of `websocket_endpoint` (src/app.py lines 135-181):
the list of outbound frames emitted for one inbound frame, in emission order.
Frames whose `type` is not `"audio"` produce nothing.  The embedded
`transcribe_audio`, `query` and `synthesize_speech` are total, so the only
exception reaching the per-message `except` handler is a base64 decode
failure. -/
def process_frame (env : SessionEnv) (msg : InFrame) : List OutFrame :=
  if msg.type = "audio" then
    match env.b64decode msg.data with
    | .error e => [OutFrame.error ("Error processing request: " ++ e)]
    | .ok audio_data =>
      let t := transcribe_audio env.stt audio_data
      let response := (query env.rag env.rag_state t).1
      let language := detect_language t
      let audio_out := (synthesize_speech env.tts response language).1
      if audio_out.isEmpty = false then
        [OutFrame.transcript t, OutFrame.response_text response,
         OutFrame.response_audio (env.b64encode audio_out)]
      else
        [OutFrame.transcript t, OutFrame.response_text response,
         OutFrame.error "Failed to generate audio response"]
  else []

/-- The session loop (src/app.py lines 131-181) over a whole inbound stream:
each inbound frame is processed in arrival order and its outbound frames are
emitted before the next frame is read. -/
def session_process (msgs : List (SessionEnv × InFrame)) : List OutFrame :=
  (msgs.map (fun p => process_frame p.1 p.2)).flatten

/-- An outbound frame that may legally close the per-frame sequence:
`response_audio` or `error`. -/
def TerminalKind (x : OutFrame) : Prop :=
  (∃ d, x = OutFrame.response_audio d) ∨ (∃ m, x = OutFrame.error m)

/-- The outbound-frame shape asserted by the spec's ordering invariant:
a `transcript`, then a `response_text`, then exactly one terminal frame. -/
def ClaimedShape (out : List OutFrame) : Prop :=
  ∃ t r x, out = [OutFrame.transcript t, OutFrame.response_text r, x] ∧
    TerminalKind x

/-- The transcript the session computes for decoded audio bytes `bs`
(the `transcript` local of src/app.py line 141). -/
def frame_transcript (env : SessionEnv) (bs : List Nat) : String :=
  transcribe_audio env.stt bs

/-- The answer text the session computes for decoded audio bytes `bs`
(the `response` local of src/app.py line 148). -/
def frame_response (env : SessionEnv) (bs : List Nat) : String :=
  (query env.rag env.rag_state (frame_transcript env bs)).1

/-- The synthesized audio bytes the session computes for decoded audio bytes
`bs` (the `audio_response` local of src/app.py line 163). -/
def frame_audio_bytes (env : SessionEnv) (bs : List Nat) : List Nat :=
  (synthesize_speech env.tts (frame_response env bs)
    (detect_language (frame_transcript env bs))).1

/- ===== concrete environments used to instantiate the theorems ===== -/

/-- The field values a fresh `RAGProcessor` has before `setup_qa_chain` runs. -/
def rag_empty : RAGState :=
  { data_folder := "data", vectorstore := none, qa_chain := none,
    has_documents := false }

/-- A query environment in which every external call raises. -/
def all_down_rag_env : RAGEnv :=
  { llm := fun _ => Except.error "connection refused",
    chain := fun _ _ => Except.error "boom" }

/-- A `RAGProcessor` state with a loaded corpus and a live chain handle. -/
def grounded_state : RAGState :=
  { data_folder := "data", vectorstore := some 0, qa_chain := some 0,
    has_documents := true }

/-- A rebuild environment with one readable text file and successful index and
chain construction. -/
def one_file_setup : SetupEnv :=
  { folder_exists := true,
    files := [{ name := "notes.txt", loadResult := Except.ok ["isi"] }],
    faiss := Except.ok 0, mkChain := Except.ok 7 }

/-- A session environment whose base64 decoding fails on every payload. -/
def bad_decode_env : SessionEnv :=
  { b64decode := fun _ => Except.error "Invalid base64-encoded string",
    stt := { recognize := fun _ => Except.ok "halo" },
    rag := { llm := fun _ => Except.ok "jawaban",
             chain := fun _ _ => Except.ok "jawaban" },
    rag_state := rag_empty,
    tts := { use_kokoro := false, initialized := false,
             kokoro := fun _ => Except.error "unavailable",
             gtts := fun _ _ => Except.ok [1, 2, 3] },
    b64encode := fun _ => "AQID" }

/-- A session environment in which every external call succeeds. -/
def good_env : SessionEnv :=
  { b64decode := fun _ => Except.ok [0, 1],
    stt := { recognize := fun _ => Except.ok "halo" },
    rag := { llm := fun _ => Except.ok "jawaban",
             chain := fun _ _ => Except.ok "jawaban" },
    rag_state := rag_empty,
    tts := { use_kokoro := false, initialized := false,
             kokoro := fun _ => Except.error "unavailable",
             gtts := fun _ _ => Except.ok [1, 2, 3] },
    b64encode := fun _ => "AQID" }

/- ===== theorems ===== -/

/-- C8: `transcribe_audio` never raises to its caller: for every input byte
sequence it returns the recognized text when recognition succeeds, and the
fixed apologetic placeholder transcript when recognition fails for any
reason. -/
theorem transcribe_audio_total_or_placeholder (env : STTEnv)
    (audio_data : List Nat) :
    (∃ t, env.recognize audio_data = Except.ok t ∧
       transcribe_audio env audio_data = t) ∨
    (∃ e, env.recognize audio_data = Except.error e ∧
       transcribe_audio env audio_data = stt_placeholder) := by
  cases h : env.recognize audio_data with
  | ok t => exact Or.inl ⟨t, rfl, by simp [ transcribe_audio, h]⟩
  | error e => exact Or.inr ⟨e, rfl, by simp [ transcribe_audio, h]⟩

/-- C9: `synthesize_speech` on the empty string, with any language tag and any
engine configuration, returns an empty byte sequence and invokes neither the
Kokoro engine nor the gTTS engine. -/
theorem synthesize_speech_empty (env : TTSEnv) (language : String) :
    synthesize_speech env "" language = ([], []) := by
  simp [synthesize_speech]

/-- C2: `query` always returns a text string to its caller: the result is
either a value produced by an external engine (LLM or QA chain) or one of the
two fixed apology strings; no internal failure propagates. -/
theorem query_total_or_apology (env : RAGEnv) (s : RAGState) (q : String) :
    (∃ p, env.llm p = Except.ok (query env s q).1) ∨
    (∃ c, env.chain c q = Except.ok (query env s q).1) ∨
    (query env s q).1 = apology_general ∨
    (query env s q).1 = apology_fallback := by
  unfold query
  by_cases hd : s.has_documents = false
  · rw [if_pos hd]
    cases hg : env.llm (general_prompt q) with
    | ok r => exact Or.inl ⟨general_prompt q, by rw [hg]⟩
    | error e => exact Or.inr (Or.inr (Or.inl rfl))
  · rw [if_neg hd]
    cases hc : chain_invoke env s.qa_chain q with
    | ok r =>
      cases hq : s.qa_chain with
      | none => simp [chain_invoke, hq] at hc
      | some ch =>
        rw [hq] at hc
        exact Or.inr (Or.inl ⟨ch, hc⟩)
    | error e =>
      cases hf : env.llm (fallback_prompt q) with
      | ok r => exact Or.inl ⟨fallback_prompt q, by rw [hf]⟩
      | error e2 => exact Or.inr (Or.inr (Or.inr rfl))

/-- C3: with a grounding corpus loaded, if the grounded path raises then
`query` attempts the simpler fallback prompt exactly once and nothing else:
its call trace is exactly one chain attempt followed by one fallback LLM call,
and the result is the fallback answer when that call succeeds, or the fixed
apology string when it also raises. -/
theorem grounded_fallback_exactly_once (env : RAGEnv) (s : RAGState)
    (q e : String) (hd : s.has_documents = true)
    (hc : chain_invoke env s.qa_chain q = Except.error e) :
    (query env s q).2 =
      [RAGCall.chainCall q, RAGCall.llmCall (fallback_prompt q)] ∧
    ((∃ r, env.llm (fallback_prompt q) = Except.ok r ∧ (query env s q).1 = r) ∨
     (∃ e2, env.llm (fallback_prompt q) = Except.error e2 ∧
        (query env s q).1 = apology_fallback)) := by
  unfold query
  rw [if_neg (by simp [hd]), hc]
  cases hf : env.llm (fallback_prompt q) with
  | ok r => exact ⟨rfl, Or.inl ⟨r, rfl, rfl⟩⟩
  | error e2 => exact ⟨rfl, Or.inr ⟨e2, rfl, rfl⟩⟩

/-- C3 witness: a concrete grounded state where both the chain and the
fallback LLM raise, instantiating the fallback-once theorem. -/
theorem grounded_fallback_exactly_once_witness :
    (query all_down_rag_env grounded_state "halo").2 =
      [RAGCall.chainCall "halo", RAGCall.llmCall (fallback_prompt "halo")] ∧
    ((∃ r, all_down_rag_env.llm (fallback_prompt "halo") = Except.ok r ∧
        (query all_down_rag_env grounded_state "halo").1 = r) ∨
     (∃ e2, all_down_rag_env.llm (fallback_prompt "halo") = Except.error e2 ∧
        (query all_down_rag_env grounded_state "halo").1 = apology_fallback)) :=
  grounded_fallback_exactly_once all_down_rag_env grounded_state "halo" "boom"
    rfl rfl

/-- Any run of `setup_qa_chain` that ends with `has_documents = true` has just
installed a fresh chain handle into `qa_chain`. -/
theorem setup_qa_chain_chain_nonnull (env : SetupEnv) (s : RAGState)
    (h : (setup_qa_chain env s).has_documents = true) :
    ∃ c, (setup_qa_chain env s).qa_chain = some c := by
  simp only [ setup_qa_chain] at h ⊢
  by_cases hemp : (load_documents env.folder_exists env.files).isEmpty = true
  · rw [if_pos hemp] at h
    simp at h
  · rw [if_neg hemp] at h
    rw [if_neg hemp]
    cases hf : env.faiss with
    | error e =>
      rw [hf] at h
      simp at h
    | ok vs =>
      cases hm : env.mkChain with
      | error e =>
        rw [hf, hm] at h
        simp at h
      | ok ch => exact ⟨ch, rfl⟩

/-- C10: in every reachable state of the answering engine — after construction
and any sequence of corpus rebuilds, including rebuilds that fail partway —
`has_documents = true` implies the QA-chain handle is non-null, so the
grounded path of `query` invokes a real chain and never a null one. -/
theorem rag_reachable_chain_nonnull (s : RAGState) (h : RAGReachable s)
    (hd : s.has_documents = true) :
    ∃ c, s.qa_chain = some c ∧
      ∀ env q, chain_invoke env s.qa_chain q = env.chain c q := by
  have hc : ∃ c, s.qa_chain = some c := by
    cases h with
    | init env => exact setup_qa_chain_chain_nonnull env _ hd
    | rebuild env hs => exact setup_qa_chain_chain_nonnull env _ hd
  obtain ⟨c, hc⟩ := hc
  exact ⟨c, hc, fun env q => by rw [hc]; rfl⟩

/-- C10 witness: the state built by constructing the engine over one readable
text file, with index and chain construction succeeding, is reachable and
grounded; the theorem yields its live chain handle. -/
theorem rag_reachable_chain_nonnull_witness :
    ∃ c, (rag_new one_file_setup).qa_chain = some c ∧
      ∀ env q, chain_invoke env (rag_new one_file_setup).qa_chain q =
        env.chain c q :=
  rag_reachable_chain_nonnull (rag_new one_file_setup)
    (RAGReachable.init one_file_setup) (by decide)

/-- C6: during a corpus rebuild, a loading error for an individual file is
caught and that file is skipped while the rebuild continues: with one
unreadable `.txt` file and one valid `.txt` file, exactly the valid file's
chunks are loaded, and the rebuild — index and chain construction
succeeding — completes with `has_documents = true`. -/
theorem rebuild_skips_unreadable_file (s : RAGState) (e : String)
    (ds : List Doc) (vs : VS) (ch : Chain) (hds : ds ≠ []) :
    load_documents true
      [{ name := "broken.txt", loadResult := Except.error e },
       { name := "notes.txt", loadResult := Except.ok ds }] = ds ∧
    (setup_qa_chain
       { folder_exists := true,
         files := [{ name := "broken.txt", loadResult := Except.error e },
                   { name := "notes.txt", loadResult := Except.ok ds }],
         faiss := Except.ok vs, mkChain := Except.ok ch } s).has_documents =
      true := by
  have h1 : ends_with "broken.txt" ".pdf" = false := by decide
  have h2 : ends_with "broken.txt" ".txt" = true := by decide
  have h3 : ends_with "notes.txt" ".pdf" = false := by decide
  have h4 : ends_with "notes.txt" ".txt" = true := by decide
  have hload : load_documents true
      [{ name := "broken.txt", loadResult := Except.error e },
       { name := "notes.txt", loadResult := Except.ok ds }] = ds := by
    simp [ load_documents, h1, h2, h3, h4]
  cases ds with
  | nil => exact absurd rfl hds
  | cons d tl =>
    refine ⟨hload, ?_⟩
    simp [ setup_qa_chain, hload]

/-- C6 witness: a concrete rebuild over a directory with one unreadable text
file and one valid text file holding one chunk. -/
theorem rebuild_skips_unreadable_file_witness :
    load_documents true
      [{ name := "broken.txt", loadResult := Except.error "Permission denied" },
       { name := "notes.txt", loadResult := Except.ok ["isi"] }] = ["isi"] ∧
    (setup_qa_chain
       { folder_exists := true,
         files := [{ name := "broken.txt",
                     loadResult := Except.error "Permission denied" },
                   { name := "notes.txt", loadResult := Except.ok ["isi"] }],
         faiss := Except.ok 0, mkChain := Except.ok 7 }
       rag_empty).has_documents = true :=
  rebuild_skips_unreadable_file rag_empty "Permission denied" ["isi"] 0 7
    (by simp)

/-- C1 counterexample: an inbound audio frame whose payload fails base64
decoding is processed by the session loop yet emits a single `error` frame,
not the claimed transcript / response_text / terminal sequence, so the claim
does not hold for every inbound audio frame. -/
theorem frame_ordering_counterexample :
    ¬ ClaimedShape
        (process_frame bad_decode_env { type := "audio", data := "a" }) := by
  intro hshape
  obtain ⟨t, r, x, hout, _⟩ := hshape
  have hpf : process_frame bad_decode_env { type := "audio", data := "a" } =
      [OutFrame.error ("Error processing request: " ++
        "Invalid base64-encoded string")] := rfl
  rw [hpf] at hout
  simp at hout

/-- C1 (amended): for every inbound audio frame whose payload decodes
successfully, the outbound frames emitted for it are, in order: a transcript
frame, then a response_text frame, then exactly one terminal frame, which is
either a response_audio or an error; a frame whose payload fails to decode
instead emits a single error frame. -/
theorem frame_output_ordered (env : SessionEnv) (msg : InFrame) (bs : List Nat)
    (hty : msg.type = "audio") (hdec : env.b64decode msg.data = Except.ok bs) :
    ClaimedShape (process_frame env msg) := by
  unfold process_frame
  rw [if_pos hty, hdec]
  dsimp only
  split
  · exact ⟨_, _, _, rfl, Or.inl ⟨_, rfl⟩⟩
  · exact ⟨_, _, _, rfl, Or.inr ⟨_, rfl⟩⟩

/-- C1 witness: a frame that decodes successfully in a fully concrete
environment yields the claimed three-frame shape. -/
theorem frame_output_ordered_witness :
    ClaimedShape (process_frame good_env { type := "audio", data := "AAE=" }) :=
  frame_output_ordered good_env { type := "audio", data := "AAE=" } [0, 1]
    rfl rfl

/-- C4: an inbound audio frame whose payload is not valid base64 emits exactly
one error frame and no transcript, response_text or response_audio frame, and
the session loop stays open: subsequent messages are still processed and their
frames emitted after it. -/
theorem malformed_payload_single_error (env : SessionEnv) (msg : InFrame)
    (rest : List (SessionEnv × InFrame)) (e : String)
    (hty : msg.type = "audio")
    (hdec : env.b64decode msg.data = Except.error e) :
    process_frame env msg =
      [OutFrame.error ("Error processing request: " ++ e)] ∧
    session_process ((env, msg) :: rest) =
      OutFrame.error ("Error processing request: " ++ e) ::
        session_process rest := by
  have h1 : process_frame env msg =
      [OutFrame.error ("Error processing request: " ++ e)] := by
    unfold process_frame
    rw [if_pos hty, hdec]
  exact ⟨h1, by simp [ session_process, h1]⟩

/-- C4 witness: a concrete malformed frame followed by an empty remainder of
the session. -/
theorem malformed_payload_single_error_witness :
    process_frame bad_decode_env { type := "audio", data := "a" } =
      [OutFrame.error ("Error processing request: " ++
        "Invalid base64-encoded string")] ∧
    session_process [(bad_decode_env, { type := "audio", data := "a" })] =
      OutFrame.error ("Error processing request: " ++
        "Invalid base64-encoded string") :: session_process [] :=
  malformed_payload_single_error bad_decode_env
    { type := "audio", data := "a" } [] "Invalid base64-encoded string" rfl rfl

/-- C5: language selection is a pure function of the transcript: it returns
the English tag exactly when the lower-cased transcript contains one of the
fixed marker strings, and the default tag "id" otherwise; in particular any
transcript containing "hello" in any letter case selects "en", and the
transcript "halo semua" selects "id". -/
theorem language_selection_policy :
    (∀ t, (detect_language t = "en" ↔
         ∃ w ∈ english_markers, w.toList <:+: lower_list t) ∧
       (detect_language t = "en" ∨ detect_language t = "id")) ∧
    (∀ t sub, sub <:+: t.toList → sub.map Char.toLower = "hello".toList →
       detect_language t = "en") ∧
    detect_language "halo semua" = "id" := by
  have hiff : ∀ t, detect_language t = "en" ↔
      ∃ w ∈ english_markers, w.toList <:+: lower_list t := by
    intro t
    unfold detect_language
    by_cases hany : english_markers.any (fun w => contains_marker w t) = true
    · rw [if_pos hany]
      simp only [List.any_eq_true, contains_marker, decide_eq_true_eq] at hany
      exact ⟨fun _ => hany, fun _ => rfl⟩
    · rw [if_neg hany]
      constructor
      · intro h
        exact absurd h (by decide)
      · intro hex
        exact absurd
          (by simpa [List.any_eq_true, contains_marker] using hex) hany
  have htotal : ∀ t, detect_language t = "en" ∨ detect_language t = "id" := by
    intro t
    unfold detect_language
    split
    · exact Or.inl rfl
    · exact Or.inr rfl
  have hhello : ∀ t sub, sub <:+: t.toList →
      sub.map Char.toLower = "hello".toList → detect_language t = "en" := by
    intro t sub hsub hmap
    obtain ⟨pre, suf, happ⟩ := hsub
    apply (hiff t).mpr
    refine ⟨"hello", by decide, pre.map Char.toLower, suf.map Char.toLower, ?_⟩
    rw [lower_list, ← happ]
    simp [List.map_append, hmap]
  exact ⟨fun t => ⟨hiff t, htotal t⟩, hhello, by decide⟩

/-- C5 witness: "Say HeLLo there" contains "hello" up to letter case, so the
policy selects the English tag. -/
theorem language_selection_policy_witness :
    detect_language "Say HeLLo there" = "en" :=
  language_selection_policy.2.1 "Say HeLLo there" "HeLLo".toList (by decide)
    (by decide)

/-- C7: for a successfully decoded audio frame, after the transcript and
response_text frames the session emits a response_audio frame exactly when
synthesis returned non-empty audio bytes, and an error frame describing
synthesis failure when it returned empty output; in both cases the loop keeps
accepting and processing subsequent frames. -/
theorem synthesis_outcome_frames (env : SessionEnv) (msg : InFrame)
    (bs : List Nat) (hty : msg.type = "audio")
    (hdec : env.b64decode msg.data = Except.ok bs) :
    (frame_audio_bytes env bs ≠ [] →
       process_frame env msg =
         [OutFrame.transcript (frame_transcript env bs),
          OutFrame.response_text (frame_response env bs),
          OutFrame.response_audio (env.b64encode (frame_audio_bytes env bs))]) ∧
    (frame_audio_bytes env bs = [] →
       process_frame env msg =
         [OutFrame.transcript (frame_transcript env bs),
          OutFrame.response_text (frame_response env bs),
          OutFrame.error "Failed to generate audio response"]) ∧
    (∀ rest, session_process ((env, msg) :: rest) =
       process_frame env msg ++ session_process rest) := by
  have hpf : process_frame env msg =
      (if (frame_audio_bytes env bs).isEmpty = false then
        [OutFrame.transcript (frame_transcript env bs),
         OutFrame.response_text (frame_response env bs),
         OutFrame.response_audio (env.b64encode (frame_audio_bytes env bs))]
      else
        [OutFrame.transcript (frame_transcript env bs),
         OutFrame.response_text (frame_response env bs),
         OutFrame.error "Failed to generate audio response"]) := by
    unfold process_frame frame_audio_bytes frame_response frame_transcript
    rw [if_pos hty, hdec]
  refine ⟨?_, ?_, ?_⟩
  · intro ha
    have hcond : (frame_audio_bytes env bs).isEmpty = false := by
      cases hl : frame_audio_bytes env bs with
      | nil => exact absurd hl ha
      | cons a tl => rfl
    rw [hpf, if_pos hcond]
  · intro ha
    rw [hpf, if_neg (by rw [ha]; simp)]
  · intro rest
    simp [ session_process]

/-- C7 witness: in a fully concrete successful environment, synthesis returns
non-empty bytes, so the response_audio branch applies and the loop continues
over the remaining frames. -/
theorem synthesis_outcome_frames_witness :
    (frame_audio_bytes good_env [0, 1] ≠ [] →
       process_frame good_env { type := "audio", data := "AAE=" } =
         [OutFrame.transcript (frame_transcript good_env [0, 1]),
          OutFrame.response_text (frame_response good_env [0, 1]),
          OutFrame.response_audio
            (good_env.b64encode (frame_audio_bytes good_env [0, 1]))]) ∧
    (frame_audio_bytes good_env [0, 1] = [] →
       process_frame good_env { type := "audio", data := "AAE=" } =
         [OutFrame.transcript (frame_transcript good_env [0, 1]),
          OutFrame.response_text (frame_response good_env [0, 1]),
          OutFrame.error "Failed to generate audio response"]) ∧
    (∀ rest,
       session_process ((good_env, { type := "audio", data := "AAE=" }) :: rest) =
         process_frame good_env { type := "audio", data := "AAE=" } ++
           session_process rest) :=
  synthesis_outcome_frames good_env { type := "audio", data := "AAE=" } [0, 1]
    rfl rfl

end VoiceAgent
